import Mathlib

/-!
Verification of the metric-derivation and synthetic-cause-code pipeline of the
ruckus-connector-server repository.

The development shallowly embeds the core functions of `src/transformers.py`,
`src/connector.py` and `src/cause_code_generator.py`:

* Python numbers are modelled as exact rationals (`ℚ`); `round(x, n)` is
  modelled by `pyRound n`, round-half-to-even on the exact value.
* Python dictionaries with heterogeneous values are modelled as association
  lists over `Val` (`none`/`num`/`str`), with `dget` playing `dict.get`.
  This raw level is used where `None`-valued fields matter.
* Records whose fields are known to be well typed (numbers or strings, with
  missing numeric fields defaulted to `0` and missing string fields to `""`,
  exactly the defaults the source applies via `.get(k, 0)` / `.get(k, "")` /
  `or 0` / `or ""` coalescing) are modelled as Lean structures.
* The process-wide random source is modelled by an explicit `Rng` value per
  draw: `random.choice(seq)` takes a uniform index into `seq` and
  `random.random()` yields a rational in `[0, 1)`.
-/

/-- Round-half-to-even on an exact rational, the rounding mode of Python's
built-in `round`: the nearest integer, ties going to the even integer. -/
def rndHalfEven (x : ℚ) : ℤ :=
  if x - ⌊x⌋ < 1/2 then ⌊x⌋
  else if 1/2 < x - ⌊x⌋ then ⌊x⌋ + 1
  else if ⌊x⌋ % 2 = 0 then ⌊x⌋ else ⌊x⌋ + 1

/-- Python's `round(x, n)` on the exact rational value of `x`. -/
def pyRound (n : ℕ) (x : ℚ) : ℚ :=
  (rndHalfEven (x * 10 ^ n) : ℚ) / 10 ^ n

/-- A Python value as it appears in the polled JSON records: `None`, a number,
or a string. -/
inductive Val where
  | none : Val
  | num : ℚ → Val
  | str : String → Val
deriving DecidableEq, Repr

/-- A Python dictionary, as an association list. -/
def Dict := List (String × Val)

/-- `d.get(k, dflt)`: the stored value when the key is present (even when that
value is `None`), otherwise the default. -/
def dget (d : Dict) (k : String) (dflt : Val) : Val :=
  match d.find? (fun p => p.1 == k) with
  | some p => p.2
  | Option.none => dflt

/-- ASCII lowercasing of a string (`str.lower`), written over the character
list so that it evaluates by kernel reduction. -/
def strLower (s : String) : String := ⟨s.data.map Char.toLower⟩

/-- ASCII uppercasing of a string (`str.upper`). -/
def strUpper (s : String) : String := ⟨s.data.map Char.toUpper⟩

/-- Python `+` as the source applies it to polled field values: numbers add,
strings concatenate, and any operand of another shape (in particular `None`)
raises `TypeError`. -/
def pyAdd : Val → Val → Except String Val
  | .num a, .num b => .ok (.num (a + b))
  | .str a, .str b => .ok (.str (a ++ b))
  | _, _ => .error "TypeError: unsupported operand type(s) for +"

/-- Python `<` on polled field values: defined on two numbers, `TypeError`
otherwise (in particular when one side is `None`). -/
def pyLt : Val → Val → Except String Bool
  | .num a, .num b => .ok (decide (a < b))
  | _, _ => .error "TypeError: unsupported operand type(s) for comparison"

/-- Python `/` on polled field values: defined on two numbers with a nonzero
divisor, `ZeroDivisionError` on a zero divisor, `TypeError` otherwise. -/
def pyDiv : Val → Val → Except String ℚ
  | .num a, .num b =>
    if b = 0 then .error "ZeroDivisionError: division by zero"
    else .ok (a / b)
  | _, _ => .error "TypeError: unsupported operand type(s) for /"

/-- Python `round(x, n)` on a polled field value: defined on numbers,
`TypeError` otherwise. -/
def pyRoundE (v : Val) (n : ℕ) : Except String ℚ :=
  match v with
  | .num a => .ok (pyRound n a)
  | _ => .error "TypeError: type does not define __round__ method"

/-- Python `.lower()` on a polled field value: defined on strings; on `None`
or a number it raises `AttributeError`. -/
def pyLower : Val → Except String String
  | .str s => .ok (strLower s)
  | _ => .error "AttributeError: object has no attribute lower"

/-- `DataTransformer.transform_zone_to_frontend` (src/transformers.py:15-42)
over a raw zone dictionary, with Python's exception behaviour made explicit:
`zone.get("apCountOnline", 0) + zone.get("apCountOffline", 0)` and the
availability / clients-per-AP formulas raise when a field is present but not
a number (in particular when it is `None`). -/
def transform_zone_to_frontendE (z : Dict) : Except String Dict := do
  let total ← pyAdd (dget z "apCountOnline" (.num 0)) (dget z "apCountOffline" (.num 0))
  let connected := dget z "apCountOnline" (.num 0)
  let disconnected := dget z "apCountOffline" (.num 0)
  let clients := dget z "clientCount" (.num 0)
  let totalPos ← pyLt (.num 0) total
  let ap_availability ←
    if totalPos then do
      let d ← pyDiv connected total
      pure (Val.num (d * 100))
    else pure (Val.num 0)
  let connectedPos ← pyLt (.num 0) connected
  let clients_per_ap ←
    if connectedPos then do
      let d ← pyDiv clients connected
      pure (Val.num d)
    else pure (Val.num 0)
  let apAvailability ← pyRoundE ap_availability 1
  let clientsPerAP ← pyRoundE clients_per_ap 2
  pure [("id", dget z "id" (.str "")),
        ("name", dget z "zoneName" (.str "")),
        ("totalAPs", total),
        ("connectedAPs", connected),
        ("disconnectedAPs", disconnected),
        ("clients", clients),
        ("apAvailability", .num apAvailability),
        ("clientsPerAP", .num clientsPerAP),
        ("experienceScore", .num 0),
        ("utilization", .num 0),
        ("rxDesense", .num 0),
        ("netflixScore", .num 0)]

/-- The offline classification of `WiFiConnector.collect_and_store`
(src/connector.py:90-107) over a raw AP dictionary, with Python's exception
behaviour made explicit: each of the three status-bearing fields is read with
default `""` and lowercased, so a field that is present but `None` raises
`AttributeError`. -/
def isOfflineE (ap : Dict) : Except String Bool := do
  let status ← pyLower (dget ap "status" (.str ""))
  let ap_connection_state ← pyLower (dget ap "apConnectionState" (.str ""))
  let connection_state ← pyLower (dget ap "connectionState" (.str ""))
  pure (status == "offline" || ap_connection_state == "offline" ||
    connection_state == "offline" ||
    (!(status == "online" || status == "connected") &&
     !(ap_connection_state == "online" || ap_connection_state == "connected") &&
     !(connection_state == "online" || connection_state == "connected")))

/-- A raw zone descriptor as consumed by `transform_zone_to_frontend`
(src/transformers.py:15-42), at the well-typed level: the numeric count
fields are integers, with a missing field represented by `0` (the source's
`.get(k, 0)` default) and the string fields by `""`. -/
structure RuckusZone where
  id : String
  zoneName : String
  apCountOnline : ℤ
  apCountOffline : ℤ
  clientCount : ℤ
deriving DecidableEq, Repr

/-- The frontend zone dictionary produced by `transform_zone_to_frontend` and
then updated in place by `WiFiConnector._calculate_zone_metrics`. -/
structure FrontendZone where
  id : String
  name : String
  totalAPs : ℤ
  connectedAPs : ℤ
  disconnectedAPs : ℤ
  clients : ℤ
  apAvailability : ℚ
  clientsPerAP : ℚ
  experienceScore : ℚ
  utilization : ℚ
  rxDesense : ℚ
  netflixScore : ℚ
deriving DecidableEq, Repr

/-- `DataTransformer.transform_zone_to_frontend` (src/transformers.py:15-42)
at the well-typed level. -/
def transform_zone_to_frontend (z : RuckusZone) : FrontendZone :=
  let total_aps := z.apCountOnline + z.apCountOffline
  let connected_aps := z.apCountOnline
  let disconnected_aps := z.apCountOffline
  let clients := z.clientCount
  let ap_availability : ℚ := if 0 < total_aps then (connected_aps : ℚ) / (total_aps : ℚ) * 100 else 0
  let clients_per_ap : ℚ := if 0 < connected_aps then (clients : ℚ) / (connected_aps : ℚ) else 0
  { id := z.id
    name := z.zoneName
    totalAPs := total_aps
    connectedAPs := connected_aps
    disconnectedAPs := disconnected_aps
    clients := clients
    apAvailability := pyRound 1 ap_availability
    clientsPerAP := pyRound 2 clients_per_ap
    experienceScore := 0
    utilization := 0
    rxDesense := 0
    netflixScore := 0 }

/-- An AP record at the well-typed level. String fields default to `""` for a
missing or `None` value (the source coalesces them with `or ""` or reads them
with default `""`); the numeric per-radio fields default to `0` (the source
coalesces them with `or 0`). -/
structure APRecord where
  apMac : String
  mac : String
  apMacAddress : String
  macAddress : String
  deviceName : String
  name : String
  apName : String
  zoneId : String
  zoneName : String
  model : String
  status : String
  apConnectionState : String
  connectionState : String
  airtime24G : ℚ
  airtime5G : ℚ
  rxDesense24G : ℚ
  rxDesense5G : ℚ
deriving DecidableEq, Repr

/-- A client record at the well-typed level. `rssi` is `Option ℚ` because the
source reads it with `client.get("rssi")` and then tests Python truthiness:
a missing or `None` field is `Option.none`, a present numeric field is
`some q` (and is kept only when `q ≠ 0`). -/
structure ClientRecord where
  clientMac : String
  zoneId : String
  rssi : Option ℚ
deriving DecidableEq, Repr

/-- The `rssi_values` collection loop of `_calculate_zone_metrics`
(src/connector.py:189-193): keep each client's `rssi` field when it is
present and truthy (nonzero). -/
def rssiValues (clients : List ClientRecord) : List ℚ :=
  clients.filterMap (fun c =>
    match c.rssi with
    | some q => if q = 0 then Option.none else some q
    | Option.none => Option.none)

/-- The `utilizations` collection loop of `_calculate_zone_metrics`
(src/connector.py:171-175): for each AP whose `airtime24G` or `airtime5G`
is truthy (nonzero), the sample `(airtime_24g + airtime_5g) / 2`. -/
def utilizationSamples (zone_aps : List APRecord) : List ℚ :=
  zone_aps.filterMap (fun ap =>
    if ap.airtime24G ≠ 0 ∨ ap.airtime5G ≠ 0
    then some ((ap.airtime24G + ap.airtime5G) / 2)
    else Option.none)

/-- The `rx_desenses` collection loop of `_calculate_zone_metrics`
(src/connector.py:177-182): all truthy (nonzero) `rxDesense24G` then
`rxDesense5G` values, per AP in order. -/
def rxDesenseSamples (zone_aps : List APRecord) : List ℚ :=
  zone_aps.flatMap (fun ap =>
    (if ap.rxDesense24G ≠ 0 then [ap.rxDesense24G] else []) ++
    (if ap.rxDesense5G ≠ 0 then [ap.rxDesense5G] else []))

/-- Python's `sum(l) / len(l)`. -/
def listMean (l : List ℚ) : ℚ := l.sum / l.length

/-- The RSSI-to-experience-score piecewise mapping of
`_calculate_zone_metrics` (src/connector.py:199-206). -/
def experienceFromRssi (avg_rssi : ℚ) : ℚ :=
  if -50 ≤ avg_rssi then 100
  else if -70 ≤ avg_rssi then 80 + ((avg_rssi + 70) / 20) * 20
  else if -85 ≤ avg_rssi then 60 + ((avg_rssi + 85) / 15) * 20
  else max 0 (60 + ((avg_rssi + 85) / 15) * 60)

/-- The body of the per-zone loop of `WiFiConnector._calculate_zone_metrics`
(src/connector.py:162-209), applied to one zone together with the AP records
and client records grouped to it. It writes the zone's `utilization` and
`rxDesense` keys, and, when the zone has clients with truthy RSSI values,
its `experienceScore` and `netflixScore` keys. -/
def updateOneZone (zone : FrontendZone) (zone_aps : List APRecord)
    (zone_clients : List ClientRecord) : FrontendZone :=
  let utilizations := utilizationSamples zone_aps
  let rx_desenses := rxDesenseSamples zone_aps
  let z1 := { zone with
    utilization := if utilizations.isEmpty then 0 else pyRound 1 (listMean utilizations)
    rxDesense := if rx_desenses.isEmpty then 0 else pyRound 1 (listMean rx_desenses) }
  if zone_clients.isEmpty then z1
  else
    let rssi_values := rssiValues zone_clients
    if rssi_values.isEmpty then z1
    else
      let avg_rssi := listMean rssi_values
      let experience_score := experienceFromRssi avg_rssi
      { z1 with
        experienceScore := pyRound 1 experience_score
        netflixScore := pyRound 1 (experience_score * 0.95) }

/-- `WiFiConnector._calculate_zone_metrics` (src/connector.py:147-209). The
source groups APs and clients into dictionaries keyed by their `zoneId` and
looks each zone's id up; grouping then looking up one key yields exactly the
order-preserving filter by that key. The source mutates the zone
dictionaries in place; the embedding returns the updated list. -/
def calculate_zone_metrics (zones : List FrontendZone) (aps : List APRecord)
    (clients : List ClientRecord) : List FrontendZone :=
  zones.map (fun zone =>
    updateOneZone zone (aps.filter (fun ap => ap.zoneId == zone.id))
      (clients.filter (fun c => c.zoneId == zone.id)))

/-- The venue summary dictionary produced by `transform_venue_data`. -/
structure VenueData where
  name : String
  totalZones : ℤ
  totalAPs : ℤ
  totalClients : ℤ
  avgExperienceScore : ℚ
  slaCompliance : ℚ
  zones : List FrontendZone
deriving DecidableEq, Repr

/-- `DataTransformer.transform_venue_data` (src/transformers.py:44-71). The
`system_inventory` parameter of the source is never read and is omitted. -/
def transform_venue_data (zones : List FrontendZone) : VenueData :=
  let total_zones : ℤ := zones.length
  let total_aps := (zones.map (fun z => z.totalAPs)).sum
  let total_clients := (zones.map (fun z => z.clients)).sum
  let experience_scores := ((zones.map (fun z => z.experienceScore)).filter (fun s => 0 < s))
  let avg_experience_score :=
    if experience_scores.isEmpty then 0 else experience_scores.sum / experience_scores.length
  let compliant_zones : ℤ := (zones.filter (fun z => 95 ≤ z.apAvailability)).length
  let sla_compliance : ℚ :=
    if 0 < total_zones then (compliant_zones : ℚ) / (total_zones : ℚ) * 100 else 0
  { name := "Main Venue"
    totalZones := total_zones
    totalAPs := total_aps
    totalClients := total_clients
    avgExperienceScore := pyRound 1 avg_experience_score
    slaCompliance := pyRound 1 sla_compliance
    zones := zones }

/-- The offline classification of `WiFiConnector.collect_and_store`
(src/connector.py:90-107) at the well-typed level: the three status-bearing
fields are strings, `""` when missing. -/
def apIsOffline (ap : APRecord) : Bool :=
  let status := strLower ap.status
  let ap_connection_state := strLower ap.apConnectionState
  let connection_state := strLower ap.connectionState
  status == "offline" || ap_connection_state == "offline" ||
    connection_state == "offline" ||
    (!(status == "online" || status == "connected") &&
     !(ap_connection_state == "online" || ap_connection_state == "connected") &&
     !(connection_state == "online" || connection_state == "connected"))

/-- One entry of the static cause-code table `CauseCodeGenerator.CAUSE_CODES`
(src/cause_code_generator.py:20-129). -/
structure CauseEntry where
  code : ℤ
  description : String
  weight : ℕ
  impactScore : ℚ
deriving DecidableEq, Repr

/-- `CauseCodeGenerator.CAUSE_CODES` (src/cause_code_generator.py:20-129),
verbatim: eighteen entries in source order. -/
def CAUSE_CODES : List CauseEntry :=
  [⟨25, "Disassociated due to insufficient QoS", 213, 73.7⟩,
   ⟨5, "Disassociated - AP unable to handle all STAs", 99, 21.5⟩,
   ⟨7, "Class 3 frame received from nonassociated STA", 98, 8.5⟩,
   ⟨1, "Unspecified reason", 87, 14.3⟩,
   ⟨34, "Disassociated for unspecified QoS reason", 87, 15.2⟩,
   ⟨2, "Previous authentication no longer valid", 54, 12.5⟩,
   ⟨4, "Disassociated due to inactivity", 39, 13.0⟩,
   ⟨3, "Deauthenticated - leaving or left BSS", 38, 17.4⟩,
   ⟨8, "Disassociated - STA has left BSS", 30, 17.8⟩,
   ⟨45, "Peer unreachable", 25, 28.3⟩,
   ⟨47, "Requested from peer", 20, 23.2⟩,
   ⟨15, "4-way handshake timeout", 15, 15.2⟩,
   ⟨6, "Class 2 frame received from nonauthenticated STA", 10, 8.5⟩,
   ⟨200, "AP lost heartbeat with controller", 8, 45.0⟩,
   ⟨201, "AP firmware update in progress", 5, 12.0⟩,
   ⟨202, "AP power failure or reboot", 5, 25.0⟩,
   ⟨203, "Network connectivity issue", 5, 30.0⟩,
   ⟨204, "AP configuration error", 3, 15.0⟩]

/-- `CauseCodeGenerator._build_weighted_list`
(src/cause_code_generator.py:137-143): each table entry appended `weight`
times, in table order. -/
def weighted_codes : List CauseEntry :=
  CAUSE_CODES.flatMap (fun cause => List.replicate cause.weight cause)

/-- Decides whether the character list `needle` occurs as a contiguous run
inside `hay` (Python's `needle in hay` on strings). -/
def charsContain (needle : List Char) : List Char → Bool
  | [] => needle.isEmpty
  | c :: rest => needle.isPrefixOf (c :: rest) || charsContain needle rest

/-- Python's `needle in hay` substring test. -/
def strContains (hay needle : String) : Bool :=
  charsContain needle.data hay.data

/-- The `power_codes` subset of `generate_cause_code`
(src/cause_code_generator.py:174-176): table entries whose lowercased
description contains "power", "network" or "heartbeat". -/
def power_codes : List CauseEntry :=
  CAUSE_CODES.filter (fun c =>
    strContains (strLower c.description) "power" ||
    strContains (strLower c.description) "network" ||
    strContains (strLower c.description) "heartbeat")

/-- The randomness one call of `generate_cause_code` may consume, made
explicit: `poolChoice` is the uniform index drawn by `random.choice` on the
weighted pool, `overrideRoll` the value of `random.random()` in `[0, 1)`, and
`subsetChoice` the uniform index drawn by `random.choice` on the override
subset. -/
structure Rng where
  poolChoice : ℕ
  overrideRoll : ℚ
  subsetChoice : ℕ
deriving DecidableEq, Repr

/-- `random.choice(l)`: the element at a uniform index of `l` (the index is
reduced modulo the length; it is only meaningful for nonempty `l`). -/
def choiceIdx (l : List CauseEntry) (k : ℕ) : CauseEntry :=
  l.getD (k % l.length) ⟨0, "", 0, 0⟩

/-- The code/description/impactScore dictionary returned by
`generate_cause_code` — a fresh copy of the selected table entry's three
fields (src/cause_code_generator.py:159-163). -/
structure CauseCodeResult where
  code : ℤ
  description : String
  impactScore : ℚ
deriving DecidableEq, Repr

/-- The fresh copy `{code, description, impactScore}` built from a selected
table entry. -/
def resultOfEntry (e : CauseEntry) : CauseCodeResult :=
  ⟨e.code, e.description, e.impactScore⟩

/-- The model test of the heuristic override
(src/cause_code_generator.py:169-171): the model string is uppercased
(missing/`None` already coalesced to `""`) and the branch requires it to be
truthy (nonempty) and to contain "T" or "H". -/
def modelTriggersOverride (model : String) : Bool :=
  let m := strUpper model
  !(m == "") && (strContains m "T" || strContains m "H")

/-- `CauseCodeGenerator.generate_cause_code`
(src/cause_code_generator.py:145-185): a weighted draw from the pool, then,
when AP data is given and its model triggers the heuristic, with probability
0.3 a uniform redraw from `power_codes` (kept only if that subset is
nonempty). -/
def generate_cause_code (g : Rng) (ap_data : Option APRecord) : CauseCodeResult :=
  let selected := choiceIdx weighted_codes g.poolChoice
  let cause_code := resultOfEntry selected
  match ap_data with
  | Option.none => cause_code
  | some ap =>
    if modelTriggersOverride ap.model then
      if g.overrideRoll < 0.3 then
        if power_codes.isEmpty then cause_code
        else resultOfEntry (choiceIdx power_codes g.subsetChoice)
      else cause_code
    else cause_code

/-- One cause-code assignment for a disconnected AP, as assembled by
`generate_cause_codes_for_aps` (src/cause_code_generator.py:228-237). -/
structure Assignment where
  apMac : String
  apName : String
  zoneId : String
  zoneName : String
  model : String
  causeCode : ℤ
  causeDescription : String
  impactScore : ℚ
deriving DecidableEq, Repr

/-- Python's `a or b` on strings: `b` when `a` is falsy (empty), else `a`. -/
def strOr (a b : String) : String := if a = "" then b else a

/-- The per-AP body of `generate_cause_codes_for_aps`
(src/cause_code_generator.py:202-237): first-non-empty fallback chains for
the MAC and name, direct reads (already coalesced to `""`) for zone id, zone
name and model, and the generated cause code's three fields. -/
def mkAssignment (g : Rng) (ap : APRecord) : Assignment :=
  let ap_mac := strOr ap.apMac (strOr ap.mac (strOr ap.apMacAddress ap.macAddress))
  let ap_name := strOr ap.deviceName (strOr ap.name ap.apName)
  let cause_code := generate_cause_code g (some ap)
  { apMac := ap_mac
    apName := ap_name
    zoneId := ap.zoneId
    zoneName := ap.zoneName
    model := ap.model
    causeCode := cause_code.code
    causeDescription := cause_code.description
    impactScore := cause_code.impactScore }

/-- `CauseCodeGenerator.generate_cause_codes_for_aps`
(src/cause_code_generator.py:187-239): one assignment per disconnected AP,
in input order; the i-th call consumes the i-th draw of the random stream. -/
def generate_cause_codes_for_aps (gs : ℕ → Rng) (disconnected_aps : List APRecord) :
    List Assignment :=
  disconnected_aps.mapIdx (fun i ap => mkAssignment (gs i) ap)

/-- `CauseCodeGenerator.get_all_cause_codes`
(src/cause_code_generator.py:241-250): fresh copies of the three public
fields of every table entry. -/
def get_all_cause_codes : List CauseCodeResult :=
  CAUSE_CODES.map (fun c => ⟨c.code, c.description, c.impactScore⟩)

/-- The in-memory state of one polling cycle: the raw record lists owned by
the orchestrator plus the derived frontend zone list. -/
structure CycleState where
  rawZones : List RuckusZone
  aps : List APRecord
  clients : List ClientRecord
  frontendZones : List FrontendZone
deriving Repr

/-- The Metric Aggregator step of one cycle (src/connector.py:50,78): the raw
zones are transformed into fresh frontend dictionaries, which
`_calculate_zone_metrics` then updates in place. The raw record lists pass
through untouched — the source contains no statement that assigns into a raw
zone, AP or client record (the in-place writes of `_calculate_zone_metrics`
target only the derived frontend dictionaries). -/
def runAggregator (s : CycleState) : CycleState :=
  let frontend_zones := s.rawZones.map transform_zone_to_frontend
  let frontend_zones := calculate_zone_metrics frontend_zones s.aps s.clients
  { rawZones := s.rawZones
    aps := s.aps
    clients := s.clients
    frontendZones := frontend_zones }

/-- The Cause Code Assigner step of one cycle (src/connector.py:90-109): the
offline subset of the AP list is selected and an assignment generated for
each of its elements, as a list of fresh records; the cycle's record lists
pass through untouched. -/
def runAssigner (gs : ℕ → Rng) (s : CycleState) : List Assignment × CycleState :=
  (generate_cause_codes_for_aps gs (s.aps.filter apIsOffline), s)

/-- The RSSI-to-score piecewise scale exactly as the specification words it,
with the two-sided range conditions spelled out. Used to cross-check the
source's cascaded conditionals. -/
def claimExperienceScale (r : ℚ) : ℚ :=
  if -50 ≤ r then 100
  else if -70 ≤ r ∧ r < -50 then 80 + ((r + 70) / 20) * 20
  else if -85 ≤ r ∧ r < -70 then 60 + ((r + 85) / 15) * 20
  else max 0 (60 + ((r + 85) / 15) * 60)

/-- The offline classification exactly as the specification words it: some
status-bearing field equals "offline" case-insensitively, or none of the
three equals "online" or "connected". -/
def claimOffline (status acs cstate : String) : Prop :=
  (strLower status = "offline" ∨ strLower acs = "offline" ∨ strLower cstate = "offline") ∨
  (strLower status ≠ "online" ∧ strLower status ≠ "connected" ∧
   strLower acs ≠ "online" ∧ strLower acs ≠ "connected" ∧
   strLower cstate ≠ "online" ∧ strLower cstate ≠ "connected")

/-- The property the specification requires of an override-branch result:
its description contains "power", "network" or "heartbeat",
case-insensitively. -/
def claimPowerWords (d : String) : Prop :=
  strContains (strLower d) "power" = true ∨
  strContains (strLower d) "network" = true ∨
  strContains (strLower d) "heartbeat" = true

lemma rndHalfEven_nonneg {x : ℚ} (hx : 0 ≤ x) : 0 ≤ rndHalfEven x := by
  have hf : (0 : ℤ) ≤ ⌊x⌋ := Int.le_floor.2 (by exact_mod_cast hx)
  unfold rndHalfEven
  split_ifs <;> omega

lemma rndHalfEven_le {x : ℚ} {B : ℤ} (h : x ≤ (B : ℚ)) : rndHalfEven x ≤ B := by
  have hfB : ⌊x⌋ ≤ B := by exact_mod_cast le_trans (Int.floor_le x) h
  have hxf : (⌊x⌋ : ℚ) ≤ x := Int.floor_le x
  unfold rndHalfEven
  split_ifs with h1 h2 h3
  · exact hfB
  · have hlo : (⌊x⌋ : ℚ) + 1/2 < x := by linarith
    have hlt : (⌊x⌋ : ℚ) < (B : ℚ) := by linarith
    have : ⌊x⌋ < B := by exact_mod_cast hlt
    omega
  · exact hfB
  · have hge : (1 : ℚ)/2 ≤ x - ⌊x⌋ := le_of_not_lt h1
    have hlt : (⌊x⌋ : ℚ) < (B : ℚ) := by linarith
    have : ⌊x⌋ < B := by exact_mod_cast hlt
    omega

lemma pyRound_nonneg {x : ℚ} (n : ℕ) (hx : 0 ≤ x) : 0 ≤ pyRound n x := by
  have h1 : (0 : ℤ) ≤ rndHalfEven (x * 10 ^ n) :=
    rndHalfEven_nonneg (by positivity)
  have h2 : (0 : ℚ) ≤ (rndHalfEven (x * 10 ^ n) : ℚ) := by exact_mod_cast h1
  unfold pyRound
  positivity

lemma pyRound_le {x : ℚ} {B : ℤ} (n : ℕ) (h : x ≤ (B : ℚ)) : pyRound n x ≤ (B : ℚ) := by
  have hmul : x * 10 ^ n ≤ (B : ℚ) * 10 ^ n := by
    have hpow : (0 : ℚ) ≤ 10 ^ n := by positivity
    exact mul_le_mul_of_nonneg_right h hpow
  have hcast : ((B * 10 ^ n : ℤ) : ℚ) = (B : ℚ) * 10 ^ n := by push_cast; ring
  have h1 : rndHalfEven (x * 10 ^ n) ≤ B * 10 ^ n :=
    rndHalfEven_le (by rw [hcast]; exact hmul)
  have h2 : (rndHalfEven (x * 10 ^ n) : ℚ) ≤ (B : ℚ) * 10 ^ n := by
    calc (rndHalfEven (x * 10 ^ n) : ℚ) ≤ ((B * 10 ^ n : ℤ) : ℚ) := by exact_mod_cast h1
    _ = (B : ℚ) * 10 ^ n := hcast
  unfold pyRound
  rw [div_le_iff₀ (by positivity)]
  exact h2

lemma pyRound_zero (n : ℕ) : pyRound n 0 = 0 := by
  unfold pyRound rndHalfEven
  norm_num

lemma pyRound_eq_down {x : ℚ} {k : ℤ} (n : ℕ)
    (h1 : (k : ℚ) ≤ x * 10 ^ n) (h2 : x * 10 ^ n - k < 1/2) :
    pyRound n x = (k : ℚ) / 10 ^ n := by
  have hfl : ⌊x * 10 ^ n⌋ = k := Int.floor_eq_iff.2 ⟨h1, by linarith⟩
  unfold pyRound rndHalfEven
  rw [hfl, if_pos h2]

lemma pyRound_eq_up {x : ℚ} {k : ℤ} (n : ℕ)
    (h1 : (k : ℚ) ≤ x * 10 ^ n) (h2 : x * 10 ^ n < (k : ℚ) + 1)
    (h3 : 1/2 < x * 10 ^ n - k) :
    pyRound n x = ((k : ℚ) + 1) / 10 ^ n := by
  have hfl : ⌊x * 10 ^ n⌋ = k := Int.floor_eq_iff.2 ⟨h1, h2⟩
  unfold pyRound rndHalfEven
  rw [hfl, if_neg (by linarith), if_pos h3]
  push_cast
  ring_nf

lemma listMean_nonneg {l : List ℚ} (h : ∀ a ∈ l, 0 ≤ a) : 0 ≤ listMean l := by
  unfold listMean
  have hs : 0 ≤ l.sum := List.sum_nonneg h
  positivity

lemma listMean_le {l : List ℚ} {c : ℚ} (hne : l ≠ []) (h : ∀ a ∈ l, a ≤ c) :
    listMean l ≤ c := by
  have hlen : 0 < l.length := List.length_pos.2 hne
  have hlenq : (0 : ℚ) < (l.length : ℚ) := by exact_mod_cast hlen
  have hs : l.sum ≤ (l.length : ℚ) * c := by
    have := List.sum_le_card_nsmul l c h
    simpa [nsmul_eq_mul] using this
  unfold listMean
  rw [div_le_iff₀ hlenq]
  linarith [hs]

lemma experienceFromRssi_bounds (r : ℚ) :
    0 ≤ experienceFromRssi r ∧ experienceFromRssi r ≤ 100 := by
  unfold experienceFromRssi
  split_ifs with h1 h2 h3
  · norm_num
  · constructor <;> nlinarith
  · constructor <;> nlinarith
  · constructor
    · exact le_max_left 0 _
    · have : 60 + ((r + 85) / 15) * 60 ≤ 100 := by nlinarith
      exact max_le (by norm_num) this

lemma filter_map_comm (l : List FrontendZone) (f : FrontendZone → ℚ) (p : ℚ → Bool) :
    (l.map f).filter p = (l.filter (fun z => p (f z))).map f := by
  induction l with
  | nil => rfl
  | cons a t ih =>
    by_cases h : p (f a) = true
    · simp [List.filter_cons, h, ih]
    · simp only [List.map_cons, List.filter_cons, h]
      simpa [h] using ih

lemma choiceIdx_mem {l : List CauseEntry} (hne : l ≠ []) (k : ℕ) : choiceIdx l k ∈ l := by
  have hlen : 0 < l.length := List.length_pos.2 hne
  have hk : k % l.length < l.length := Nat.mod_lt _ hlen
  unfold choiceIdx
  rw [List.getD_eq_getElem?_getD, List.getElem?_eq_getElem hk]
  exact List.getElem_mem hk

set_option maxRecDepth 4000 in
lemma weighted_codes_length : weighted_codes.length = 841 := by
  simp [weighted_codes, CAUSE_CODES, List.length_replicate]

lemma weighted_codes_ne_nil : weighted_codes ≠ [] := by
  intro h
  have := weighted_codes_length
  rw [h] at this
  exact absurd this (by decide)

lemma mem_of_mem_flatMap_replicate {t : List CauseEntry} {x : CauseEntry}
    (hx : x ∈ t.flatMap (fun e => List.replicate e.weight e)) : x ∈ t := by
  rcases List.mem_flatMap.1 hx with ⟨a, ha, hrep⟩
  rwa [List.eq_of_mem_replicate hrep]

lemma mem_table_of_mem_weighted {x : CauseEntry} (hx : x ∈ weighted_codes) :
    x ∈ CAUSE_CODES :=
  mem_of_mem_flatMap_replicate hx

lemma cause_codes_nodup : CAUSE_CODES.Nodup := by
  have h : (CAUSE_CODES.map (fun e => e.code)).Nodup := by decide
  exact h.of_map _

lemma count_flatMap_replicate {l : List CauseEntry} {c : CauseEntry}
    (hnd : l.Nodup) (hc : c ∈ l) :
    (l.flatMap (fun e => List.replicate e.weight e)).count c = c.weight := by
  induction l with
  | nil => exact absurd hc (List.not_mem_nil c)
  | cons a t ih =>
    rw [List.flatMap_cons, List.count_append]
    rcases List.mem_cons.1 hc with hca | hct
    · subst hca
      have hnott : c ∉ t := (List.nodup_cons.1 hnd).1
      have hz : (t.flatMap (fun e => List.replicate e.weight e)).count c = 0 := by
        rw [List.count_eq_zero]
        intro hmem
        exact hnott (mem_of_mem_flatMap_replicate hmem)
      rw [hz, List.count_replicate]
      simp
    · have hne : a ≠ c := by
        intro hac
        subst hac
        exact (List.nodup_cons.1 hnd).1 hct
      rw [List.count_replicate, if_neg (by simpa using hne),
        ih (List.nodup_cons.1 hnd).2 hct]
      simp

lemma power_codes_ne_nil : power_codes ≠ [] := by decide

lemma power_codes_sub_table {x : CauseEntry} (hx : x ∈ power_codes) : x ∈ CAUSE_CODES :=
  (List.mem_filter.1 hx).1

lemma power_codes_words {x : CauseEntry} (hx : x ∈ power_codes) :
    claimPowerWords x.description := by
  have hp := (List.mem_filter.1 hx).2
  unfold claimPowerWords
  have hp' := by simpa [Bool.or_eq_true] using hp
  tauto

lemma generate_cause_code_mem_table (g : Rng) (ap_opt : Option APRecord) :
    ∃ e ∈ CAUSE_CODES, generate_cause_code g ap_opt = resultOfEntry e := by
  unfold generate_cause_code
  cases ap_opt with
  | none =>
    exact ⟨choiceIdx weighted_codes g.poolChoice,
      mem_table_of_mem_weighted (choiceIdx_mem weighted_codes_ne_nil _), rfl⟩
  | some ap =>
    by_cases h1 : modelTriggersOverride ap.model
    · by_cases h2 : g.overrideRoll < 0.3
      · have h3 : power_codes.isEmpty = false := by
          simpa [List.isEmpty_iff] using power_codes_ne_nil
        refine ⟨choiceIdx power_codes g.subsetChoice,
          power_codes_sub_table (choiceIdx_mem power_codes_ne_nil _), ?_⟩
        simp [h1, h2, h3]
      · exact ⟨choiceIdx weighted_codes g.poolChoice,
          mem_table_of_mem_weighted (choiceIdx_mem weighted_codes_ne_nil _), by simp [h1, h2]⟩
    · exact ⟨choiceIdx weighted_codes g.poolChoice,
        mem_table_of_mem_weighted (choiceIdx_mem weighted_codes_ne_nil _), by simp [h1]⟩

lemma mkAssignment_mem_table (g : Rng) (ap : APRecord) :
    ∃ e ∈ CAUSE_CODES, (mkAssignment g ap).causeCode = e.code ∧
      (mkAssignment g ap).causeDescription = e.description ∧
      (mkAssignment g ap).impactScore = e.impactScore := by
  obtain ⟨e, he, hres⟩ := generate_cause_code_mem_table g (some ap)
  refine ⟨e, he, ?_⟩
  simp [mkAssignment, hres, resultOfEntry]

lemma experience_eq_claim (r : ℚ) : experienceFromRssi r = claimExperienceScale r := by
  by_cases h1 : -50 ≤ r
  · simp [experienceFromRssi, claimExperienceScale, h1]
  · have hlt1 : r < -50 := not_le.1 h1
    by_cases h2 : -70 ≤ r
    · simp [experienceFromRssi, claimExperienceScale, h1, h2, hlt1]
    · have hlt2 : r < -70 := not_le.1 h2
      by_cases h3 : -85 ≤ r
      · simp [experienceFromRssi, claimExperienceScale, h1, h2, h3, hlt2]
      · simp [experienceFromRssi, claimExperienceScale, h1, h2, h3]

lemma updateOneZone_rssi (zone : FrontendZone) (zaps : List APRecord)
    {zcs : List ClientRecord} (hne : rssiValues zcs ≠ []) :
    (updateOneZone zone zaps zcs).experienceScore
        = pyRound 1 (experienceFromRssi (listMean (rssiValues zcs))) ∧
    (updateOneZone zone zaps zcs).netflixScore
        = pyRound 1 (experienceFromRssi (listMean (rssiValues zcs)) * 0.95) := by
  have hzc : zcs ≠ [] := by
    intro h
    rw [h] at hne
    exact hne rfl
  unfold updateOneZone
  simp [List.isEmpty_iff, hzc, hne]

lemma updateOneZone_no_rssi (zone : FrontendZone) (zaps : List APRecord)
    {zcs : List ClientRecord} (he : rssiValues zcs = []) :
    (updateOneZone zone zaps zcs).experienceScore = zone.experienceScore ∧
    (updateOneZone zone zaps zcs).netflixScore = zone.netflixScore := by
  unfold updateOneZone
  by_cases hzc : zcs = []
  · simp [hzc]
  · simp [List.isEmpty_iff, hzc, he]

lemma updateOneZone_keeps (zone : FrontendZone) (zaps : List APRecord)
    (zcs : List ClientRecord) :
    (updateOneZone zone zaps zcs).totalAPs = zone.totalAPs ∧
    (updateOneZone zone zaps zcs).connectedAPs = zone.connectedAPs ∧
    (updateOneZone zone zaps zcs).disconnectedAPs = zone.disconnectedAPs ∧
    (updateOneZone zone zaps zcs).apAvailability = zone.apAvailability ∧
    (updateOneZone zone zaps zcs).utilization =
      (if (utilizationSamples zaps).isEmpty then 0
       else pyRound 1 (listMean (utilizationSamples zaps))) := by
  unfold updateOneZone
  by_cases h1 : zcs.isEmpty <;> by_cases h2 : (rssiValues zcs).isEmpty <;> simp [h1, h2]

lemma isOfflineE_str (s a c : String) :
    isOfflineE [("status", Val.str s), ("apConnectionState", Val.str a),
        ("connectionState", Val.str c)] =
      Except.ok (strLower s == "offline" || strLower a == "offline" ||
        strLower c == "offline" ||
        (!(strLower s == "online" || strLower s == "connected") &&
         !(strLower a == "online" || strLower a == "connected") &&
         !(strLower c == "online" || strLower c == "connected"))) := rfl

/-- C1: the claim says every core operation returns a structurally valid
result with missing/null numeric fields treated as 0 and never raises, in
particular not when a status field or a numeric count field is present but
null. The code contradicts this: zone normalization evaluates
`None + 0` (a `TypeError`) on a zone whose `apCountOnline` is present but
null, and the offline classification evaluates `None.lower()` (an
`AttributeError`) on an AP whose `status` is present but null, while
elsewhere the pipeline deliberately coalesces null with `or 0` / `or ""`.
This theorem evaluates the embedded operations at those failing inputs. -/
theorem C1_null_field_raises :
    transform_zone_to_frontendE [("apCountOnline", Val.none)] =
      Except.error "TypeError: unsupported operand type(s) for +" ∧
    isOfflineE [("status", Val.none)] =
      Except.error "AttributeError: object has no attribute lower" :=
  ⟨rfl, rfl⟩

/-- C2: for a zone whose grouped client list has present-and-nonzero RSSI
values, the zone's experienceScore is the mean RSSI mapped by the claimed
piecewise scale and rounded to 1 decimal, and netflixScore is the scale
value times 0.95 rounded to 1 decimal; a zone with no such RSSI values keeps
both scores unchanged (and zone normalization initializes them to 0);
concretely mean RSSI −50 gives 100, −60 gives 90.0, −90 gives 40.0. -/
theorem C2_experience_score_from_rssi :
    (∀ (zone : FrontendZone) (zaps : List APRecord) (zcs : List ClientRecord),
      rssiValues zcs ≠ [] →
        (updateOneZone zone zaps zcs).experienceScore
            = pyRound 1 (claimExperienceScale (listMean (rssiValues zcs))) ∧
        (updateOneZone zone zaps zcs).netflixScore
            = pyRound 1 (claimExperienceScale (listMean (rssiValues zcs)) * 0.95)) ∧
    (∀ (zone : FrontendZone) (zaps : List APRecord) (zcs : List ClientRecord),
      rssiValues zcs = [] →
        (updateOneZone zone zaps zcs).experienceScore = zone.experienceScore ∧
        (updateOneZone zone zaps zcs).netflixScore = zone.netflixScore) ∧
    (∀ z : RuckusZone, (transform_zone_to_frontend z).experienceScore = 0 ∧
        (transform_zone_to_frontend z).netflixScore = 0) ∧
    pyRound 1 (claimExperienceScale (-50)) = 100 ∧
    pyRound 1 (claimExperienceScale (-60)) = 90 ∧
    pyRound 1 (claimExperienceScale (-90)) = 40 := by
  refine ⟨?_, ?_, ?_, ?_, ?_, ?_⟩
  · intro zone zaps zcs hne
    have h := updateOneZone_rssi zone zaps hne
    rw [experience_eq_claim] at h
    exact h
  · intro zone zaps zcs he
    exact updateOneZone_no_rssi zone zaps he
  · intro z
    constructor <;> rfl
  · have h : claimExperienceScale (-50) = 100 := by norm_num [claimExperienceScale]
    rw [h]
    have h2 := pyRound_eq_down 1 (x := (100 : ℚ)) (k := 1000) (by norm_num) (by norm_num)
    rw [h2]
    norm_num
  · have h : claimExperienceScale (-60) = 90 := by norm_num [claimExperienceScale]
    rw [h]
    have h2 := pyRound_eq_down 1 (x := (90 : ℚ)) (k := 900) (by norm_num) (by norm_num)
    rw [h2]
    norm_num
  · have h : claimExperienceScale (-90) = 40 := by
      norm_num [claimExperienceScale]
    rw [h]
    have h2 := pyRound_eq_down 1 (x := (40 : ℚ)) (k := 400) (by norm_num) (by norm_num)
    rw [h2]
    norm_num

/-- Witness for C2: a concrete zone with one client at RSSI −60 takes the
nonempty-RSSI branch and gets experienceScore 90.0 via the claimed scale. -/
theorem C2_experience_score_witness :
    rssiValues [⟨"c1", "z1", some (-60)⟩] ≠ [] ∧
    (updateOneZone (transform_zone_to_frontend ⟨"z1", "", 0, 0, 0⟩) []
        [⟨"c1", "z1", some (-60)⟩]).experienceScore
      = pyRound 1 (claimExperienceScale (listMean (rssiValues [⟨"c1", "z1", some (-60)⟩]))) := by
  have hne : rssiValues [(⟨"c1", "z1", some (-60)⟩ : ClientRecord)] ≠ [] := by
    norm_num [rssiValues, List.filterMap]
  exact ⟨hne, (C2_experience_score_from_rssi.1 _ _ _ hne).1⟩

/-- C3: an AP is classified offline exactly when some status-bearing field
equals "offline" case-insensitively or none of the three equals "online" or
"connected"; an AP with all three fields blank is offline, and one whose
`status` lowercases to "online" is not. -/
theorem C3_offline_classification :
    (∀ s a c : String,
      isOfflineE [("status", Val.str s), ("apConnectionState", Val.str a),
          ("connectionState", Val.str c)] = Except.ok true ↔ claimOffline s a c) ∧
    isOfflineE [("status", Val.str ""), ("apConnectionState", Val.str ""),
        ("connectionState", Val.str "")] = Except.ok true ∧
    (∀ s : String, strLower s = "online" →
      isOfflineE [("status", Val.str s), ("apConnectionState", Val.str ""),
          ("connectionState", Val.str "")] = Except.ok false) := by
  refine ⟨?_, rfl, ?_⟩
  · intro s a c
    rw [isOfflineE_str]
    simp only [Except.ok.injEq, claimOffline, Bool.or_eq_true, Bool.and_eq_true,
      Bool.not_eq_true', Bool.or_eq_false_iff, beq_iff_eq, beq_eq_false_iff_ne]
    tauto
  · intro s hs
    rw [isOfflineE_str, hs]
    rfl

/-- Witness for C3: an AP with `status = "OnLiNe"` is not classified
offline. -/
theorem C3_offline_witness :
    isOfflineE [("status", Val.str "OnLiNe"), ("apConnectionState", Val.str ""),
        ("connectionState", Val.str "")] = Except.ok false :=
  C3_offline_classification.2.2 "OnLiNe" rfl

/-- C4 counterexample: the claim states the total pool length (the sum of all
weights in the table) equals 826; the weights of the eighteen entries
actually sum to 841, so the pool length is not 826. -/
theorem C4_pool_total_counterexample : ¬ (weighted_codes.length = 826) := by
  rw [weighted_codes_length]
  decide

/-- C4 (amended): the weighted pool contains each of the eighteen static
cause-code definitions repeated exactly its weight times and nothing else,
so a uniform draw selects each code with probability weight/Σweights; the
total pool length (the sum of all weights) is 841, not the claimed 826. -/
theorem C4_weighted_pool :
    weighted_codes.length = 841 ∧
    (∀ e ∈ CAUSE_CODES, weighted_codes.count e = e.weight) ∧
    (∀ x ∈ weighted_codes, x ∈ CAUSE_CODES) ∧
    (∀ e ∈ CAUSE_CODES,
      (weighted_codes.count e : ℚ) / (weighted_codes.length : ℚ) = (e.weight : ℚ) / 841) := by
  refine ⟨weighted_codes_length, ?_, ?_, ?_⟩
  · intro e he
    exact count_flatMap_replicate cause_codes_nodup he
  · intro x hx
    exact mem_table_of_mem_weighted hx
  · intro e he
    have hc : weighted_codes.count e = e.weight :=
      count_flatMap_replicate cause_codes_nodup he
    rw [hc, weighted_codes_length]
    norm_num

/-- Witness for C4: the code-25 entry is in the table and occurs exactly 213
times (its weight) in the pool. -/
theorem C4_weighted_pool_witness :
    (⟨25, "Disassociated due to insufficient QoS", 213, 73.7⟩ : CauseEntry) ∈ CAUSE_CODES ∧
    weighted_codes.count ⟨25, "Disassociated due to insufficient QoS", 213, 73.7⟩ = 213 := by
  have hmem : (⟨25, "Disassociated due to insufficient QoS", 213, 73.7⟩ : CauseEntry) ∈ CAUSE_CODES := by
    simp [CAUSE_CODES]
  exact ⟨hmem, C4_weighted_pool.2.1 _ hmem⟩

/-- C5: zone normalization yields totalAPs = online + offline counts,
connectedAPs = online, disconnectedAPs = offline, apAvailability =
connected/total·100 rounded to 1 decimal when total > 0 else 0, clientsPerAP
= clients/connected rounded to 2 decimals when connected > 0 else 0;
concretely the zone (18 online, 2 offline, 40 clients) yields totalAPs 20,
apAvailability 90.0, clientsPerAP 2.22. -/
theorem C5_zone_normalization :
    (∀ z : RuckusZone,
      (transform_zone_to_frontend z).totalAPs = z.apCountOnline + z.apCountOffline ∧
      (transform_zone_to_frontend z).connectedAPs = z.apCountOnline ∧
      (transform_zone_to_frontend z).disconnectedAPs = z.apCountOffline ∧
      (transform_zone_to_frontend z).apAvailability =
        (if 0 < z.apCountOnline + z.apCountOffline
         then pyRound 1 ((z.apCountOnline : ℚ) / ((z.apCountOnline : ℚ) + (z.apCountOffline : ℚ)) * 100)
         else 0) ∧
      (transform_zone_to_frontend z).clientsPerAP =
        (if 0 < z.apCountOnline
         then pyRound 2 ((z.clientCount : ℚ) / (z.apCountOnline : ℚ))
         else 0)) ∧
    (transform_zone_to_frontend ⟨"", "", 18, 2, 40⟩).totalAPs = 20 ∧
    (transform_zone_to_frontend ⟨"", "", 18, 2, 40⟩).apAvailability = 90 ∧
    (transform_zone_to_frontend ⟨"", "", 18, 2, 40⟩).clientsPerAP = 2.22 := by
  refine ⟨?_, ?_, ?_, ?_⟩
  · intro z
    refine ⟨rfl, rfl, rfl, ?_, ?_⟩
    · by_cases h : 0 < z.apCountOnline + z.apCountOffline
      · simp only [transform_zone_to_frontend, if_pos h]
        push_cast
        ring_nf
      · simp only [transform_zone_to_frontend, if_neg h]
        exact pyRound_zero 1
    · by_cases h : 0 < z.apCountOnline
      · simp only [transform_zone_to_frontend, if_pos h]
      · simp only [transform_zone_to_frontend, if_neg h]
        exact pyRound_zero 2
  · rfl
  · have h1 : (transform_zone_to_frontend ⟨"", "", 18, 2, 40⟩).apAvailability
        = pyRound 1 90 := by
      norm_num [transform_zone_to_frontend]
    rw [h1, pyRound_eq_down 1 (x := (90 : ℚ)) (k := 900) (by norm_num) (by norm_num)]
    norm_num
  · have h1 : (transform_zone_to_frontend ⟨"", "", 18, 2, 40⟩).clientsPerAP
        = pyRound 2 (20/9) := by
      norm_num [transform_zone_to_frontend]
    rw [h1, pyRound_eq_down 2 (x := (20 : ℚ)/9) (k := 222) (by norm_num) (by norm_num)]
    norm_num

/-- C6: the venue summary's avgExperienceScore is the mean of experienceScore
over exactly the zones with a strictly positive score (0 if none) and
slaCompliance is the count of zones with apAvailability ≥ 95 over the zone
count times 100 (0 if no zones), both rounded to 1 decimal; concretely zones
with availabilities 96, 94, 100 yield slaCompliance 66.7. -/
theorem C6_venue_summary :
    (∀ zones : List FrontendZone,
      (transform_venue_data zones).avgExperienceScore =
        (if zones.filter (fun z => decide (0 < z.experienceScore)) = [] then 0
         else pyRound 1 (listMean
           ((zones.filter (fun z => decide (0 < z.experienceScore))).map
             (fun z => z.experienceScore)))) ∧
      (transform_venue_data zones).slaCompliance =
        (if zones = [] then 0
         else pyRound 1
           ((zones.countP (fun z => decide (95 ≤ z.apAvailability)) : ℚ)
             / (zones.length : ℚ) * 100))) ∧
    (transform_venue_data
      [⟨"a", "", 0, 0, 0, 0, 96, 0, 0, 0, 0, 0⟩,
       ⟨"b", "", 0, 0, 0, 0, 94, 0, 0, 0, 0, 0⟩,
       ⟨"c", "", 0, 0, 0, 0, 100, 0, 0, 0, 0, 0⟩]).slaCompliance = 66.7 := by
  refine ⟨?_, ?_⟩
  · intro zones
    constructor
    · show pyRound 1 (if ((zones.map (fun z => z.experienceScore)).filter
          (fun s => decide (0 < s))).isEmpty then 0
          else ((zones.map (fun z => z.experienceScore)).filter (fun s => decide (0 < s))).sum /
            (((zones.map (fun z => z.experienceScore)).filter (fun s => decide (0 < s))).length : ℚ)) = _
      rw [filter_map_comm zones (fun z => z.experienceScore) (fun s => decide (0 < s))]
      by_cases h : zones.filter (fun z => decide (0 < z.experienceScore)) = []
      · simp [h, pyRound_zero]
      · have hmap : (zones.filter (fun z => decide (0 < z.experienceScore))).map
            (fun z => z.experienceScore) ≠ [] := by
          simpa [List.map_eq_nil_iff] using h
        simp [List.isEmpty_iff, hmap, h, listMean]
    · show pyRound 1 (if 0 < (zones.length : ℤ)
          then (((zones.filter (fun z => decide (95 ≤ z.apAvailability))).length : ℤ) : ℚ)
            / ((zones.length : ℤ) : ℚ) * 100 else 0) = _
      by_cases h : zones = []
      · simp [h, pyRound_zero]
      · have hpos : 0 < (zones.length : ℤ) := by
          have := List.length_pos.2 h
          exact_mod_cast this
        rw [if_pos hpos, if_neg h, List.countP_eq_length_filter]
        push_cast
        ring_nf
  · have h1 : (transform_venue_data
        [⟨"a", "", 0, 0, 0, 0, 96, 0, 0, 0, 0, 0⟩,
         ⟨"b", "", 0, 0, 0, 0, 94, 0, 0, 0, 0, 0⟩,
         ⟨"c", "", 0, 0, 0, 0, 100, 0, 0, 0, 0, 0⟩]).slaCompliance
          = pyRound 1 (200/3) := by
      norm_num [transform_venue_data, List.filter]
    rw [h1, pyRound_eq_up 1 (x := (200 : ℚ)/3) (k := 666) (by norm_num) (by norm_num)
      (by norm_num)]
    norm_num

/-- C7: the 0.3-probability override branch is entered only when the AP's
model, compared case-insensitively, contains the letter T or H (an empty
model never takes it, for any random stream); when taken, the selection is
replaced by a uniform draw from the subset of definitions whose description
contains "power", "network" or "heartbeat" case-insensitively, so for model
"T350" with the RNG forced into the branch the emitted description contains
one of those words. -/
theorem C7_override_branch :
    (∀ (g : Rng) (ap : APRecord), ap.model = "" →
      generate_cause_code g (some ap) = resultOfEntry (choiceIdx weighted_codes g.poolChoice)) ∧
    (∀ (g : Rng) (ap : APRecord), modelTriggersOverride ap.model = false →
      generate_cause_code g (some ap) = resultOfEntry (choiceIdx weighted_codes g.poolChoice)) ∧
    (∀ (g : Rng) (ap : APRecord), modelTriggersOverride ap.model = true →
      g.overrideRoll < 0.3 →
      generate_cause_code g (some ap) = resultOfEntry (choiceIdx power_codes g.subsetChoice) ∧
      claimPowerWords (generate_cause_code g (some ap)).description) ∧
    (∀ (g : Rng) (ap : APRecord), ap.model = "T350" → g.overrideRoll < 0.3 →
      claimPowerWords (generate_cause_code g (some ap)).description) := by
  have hsub : ∀ (g : Rng) (ap : APRecord), modelTriggersOverride ap.model = true →
      g.overrideRoll < 0.3 →
      generate_cause_code g (some ap) = resultOfEntry (choiceIdx power_codes g.subsetChoice) ∧
      claimPowerWords (generate_cause_code g (some ap)).description := by
    intro g ap h1 h2
    have h3 : power_codes.isEmpty = false := by
      simpa [List.isEmpty_iff] using power_codes_ne_nil
    have heq : generate_cause_code g (some ap)
        = resultOfEntry (choiceIdx power_codes g.subsetChoice) := by
      simp [generate_cause_code, h1, h2, h3]
    refine ⟨heq, ?_⟩
    rw [heq]
    exact power_codes_words (choiceIdx_mem power_codes_ne_nil _)
  refine ⟨?_, ?_, hsub, ?_⟩
  · intro g ap h
    have hm : modelTriggersOverride ap.model = false := by
      rw [h]
      decide
    simp [generate_cause_code, hm]
  · intro g ap hm
    simp [generate_cause_code, hm]
  · intro g ap hmodel hroll
    have hm : modelTriggersOverride ap.model = true := by
      rw [hmodel]
      decide
    exact (hsub g ap hm hroll).2

/-- Witness for C7: with an RNG whose override roll is 0 (< 0.3) and an AP of
model "T350", the emitted description contains one of the three words. -/
theorem C7_override_witness :
    claimPowerWords ((generate_cause_code ⟨0, 0, 0⟩
      (some ⟨"", "", "", "", "", "", "", "", "", "T350", "", "", "", 0, 0, 0, 0⟩)).description) :=
  C7_override_branch.2.2.2 ⟨0, 0, 0⟩
    ⟨"", "", "", "", "", "", "", "", "", "T350", "", "", "", 0, 0, 0, 0⟩ rfl (by norm_num)

/-- C8 counterexample: the claim asserts every percentage/score field of a
produced ZoneMetrics lies in [0, 100]; but utilization is never clamped, so
a zone whose single AP reports airtime 300 on both bands gets utilization
300 > 100. -/
theorem C8_clamp_counterexample :
    (calculate_zone_metrics [transform_zone_to_frontend ⟨"z1", "", 1, 0, 0⟩]
        [⟨"", "", "", "", "", "", "", "z1", "", "", "", "", "", 300, 300, 0, 0⟩] []).map
      (fun z => z.utilization) = [300] ∧
    ¬ ((300 : ℚ) ≤ 100) := by
  constructor
  · have hsamp : utilizationSamples
        [⟨"", "", "", "", "", "", "", "z1", "", "", "", "", "", 300, 300, 0, 0⟩] = [300] := by
      norm_num [utilizationSamples, List.filterMap]
    have hmean : listMean [(300 : ℚ)] = 300 := by
      norm_num [listMean]
    have hround : pyRound 1 (300 : ℚ) = 300 := by
      rw [pyRound_eq_down 1 (x := (300 : ℚ)) (k := 3000) (by norm_num) (by norm_num)]
      norm_num
    have hid : (transform_zone_to_frontend ⟨"z1", "", 1, 0, 0⟩).id = "z1" := rfl
    simp [calculate_zone_metrics, hid, List.filter_cons, List.filter_nil,
      updateOneZone, hsamp, hmean, hround]
  · norm_num

/-- C8 (amended): for every ZoneMetrics produced by normalizing a zone and
applying the per-zone metric pass, connectedAPs + disconnectedAPs = totalAPs
holds unconditionally; and when the zone's AP counts are nonnegative and
every grouped AP's airtime values lie in [0, 100], the fields
apAvailability, utilization, experienceScore and netflixScore all lie in
[0, 100] (the code does not clamp: the bounds come from the input ranges). -/
theorem C8_zone_invariants :
    ∀ (z : RuckusZone) (zaps : List APRecord) (zcs : List ClientRecord),
      (updateOneZone (transform_zone_to_frontend z) zaps zcs).connectedAPs +
        (updateOneZone (transform_zone_to_frontend z) zaps zcs).disconnectedAPs =
        (updateOneZone (transform_zone_to_frontend z) zaps zcs).totalAPs ∧
      (0 ≤ z.apCountOnline → 0 ≤ z.apCountOffline →
        (∀ ap ∈ zaps, 0 ≤ ap.airtime24G ∧ ap.airtime24G ≤ 100 ∧
          0 ≤ ap.airtime5G ∧ ap.airtime5G ≤ 100) →
        (0 ≤ (updateOneZone (transform_zone_to_frontend z) zaps zcs).apAvailability ∧
          (updateOneZone (transform_zone_to_frontend z) zaps zcs).apAvailability ≤ 100) ∧
        (0 ≤ (updateOneZone (transform_zone_to_frontend z) zaps zcs).utilization ∧
          (updateOneZone (transform_zone_to_frontend z) zaps zcs).utilization ≤ 100) ∧
        (0 ≤ (updateOneZone (transform_zone_to_frontend z) zaps zcs).experienceScore ∧
          (updateOneZone (transform_zone_to_frontend z) zaps zcs).experienceScore ≤ 100) ∧
        (0 ≤ (updateOneZone (transform_zone_to_frontend z) zaps zcs).netflixScore ∧
          (updateOneZone (transform_zone_to_frontend z) zaps zcs).netflixScore ≤ 100)) := by
  intro z zaps zcs
  obtain ⟨htot, hcon, hdis, havail, hutil⟩ := updateOneZone_keeps
    (transform_zone_to_frontend z) zaps zcs
  constructor
  · rw [htot, hcon, hdis]
    show z.apCountOnline + z.apCountOffline = z.apCountOnline + z.apCountOffline
    rfl
  · intro hon hoff haps
    have hbound100 : ∀ x : ℚ, 0 ≤ x → x ≤ 100 → 0 ≤ pyRound 1 x ∧ pyRound 1 x ≤ 100 := by
      intro x hx0 hx100
      refine ⟨pyRound_nonneg 1 hx0, ?_⟩
      have := pyRound_le (B := 100) 1 (by exact_mod_cast hx100)
      exact_mod_cast this
    refine ⟨?_, ?_, ?_, ?_⟩
    · rw [havail]
      show 0 ≤ (transform_zone_to_frontend z).apAvailability ∧
        (transform_zone_to_frontend z).apAvailability ≤ 100
      by_cases h : 0 < z.apCountOnline + z.apCountOffline
      · have harg : (0 : ℚ) ≤ (z.apCountOnline : ℚ) / ((z.apCountOnline + z.apCountOffline : ℤ) : ℚ) * 100 ∧
            (z.apCountOnline : ℚ) / ((z.apCountOnline + z.apCountOffline : ℤ) : ℚ) * 100 ≤ 100 := by
          have htq : (0 : ℚ) < ((z.apCountOnline + z.apCountOffline : ℤ) : ℚ) := by
            exact_mod_cast h
          have hcq : (0 : ℚ) ≤ (z.apCountOnline : ℚ) := by exact_mod_cast hon
          have hle : (z.apCountOnline : ℚ) ≤ ((z.apCountOnline + z.apCountOffline : ℤ) : ℚ) := by
            push_cast
            have hoq : (0 : ℚ) ≤ (z.apCountOffline : ℚ) := by exact_mod_cast hoff
            linarith
          constructor
          · positivity
          · have hdiv : (z.apCountOnline : ℚ) / ((z.apCountOnline + z.apCountOffline : ℤ) : ℚ) ≤ 1 :=
              (div_le_one htq).2 hle
            nlinarith
        have heq : (transform_zone_to_frontend z).apAvailability =
            pyRound 1 ((z.apCountOnline : ℚ) / ((z.apCountOnline + z.apCountOffline : ℤ) : ℚ) * 100) := by
          simp only [transform_zone_to_frontend, if_pos h]
        rw [heq]
        exact hbound100 _ harg.1 harg.2
      · have heq : (transform_zone_to_frontend z).apAvailability = pyRound 1 0 := by
          simp only [transform_zone_to_frontend, if_neg h]
        rw [heq, pyRound_zero]
        norm_num
    · rw [hutil]
      by_cases h : (utilizationSamples zaps).isEmpty
      · rw [if_pos h]
        norm_num
      · rw [if_neg h]
        have hne : utilizationSamples zaps ≠ [] := by
          simpa [List.isEmpty_iff] using h
        have hmem : ∀ u ∈ utilizationSamples zaps, 0 ≤ u ∧ u ≤ 100 := by
          intro u hu
          obtain ⟨ap, hap, hfu⟩ := List.mem_filterMap.1 hu
          by_cases hc : ap.airtime24G ≠ 0 ∨ ap.airtime5G ≠ 0
          · rw [if_pos hc] at hfu
            obtain ⟨h1, h2, h3, h4⟩ := haps ap hap
            have : (ap.airtime24G + ap.airtime5G) / 2 = u := Option.some.inj hfu
            constructor <;> linarith [this]
          · rw [if_neg hc] at hfu
            exact absurd hfu (by simp)
        have hm0 : 0 ≤ listMean (utilizationSamples zaps) :=
          listMean_nonneg (fun a ha => (hmem a ha).1)
        have hm100 : listMean (utilizationSamples zaps) ≤ 100 :=
          listMean_le hne (fun a ha => (hmem a ha).2)
        exact hbound100 _ hm0 hm100
    · by_cases hr : rssiValues zcs = []
      · rw [(updateOneZone_no_rssi (transform_zone_to_frontend z) zaps hr).1]
        show (0 : ℚ) ≤ 0 ∧ (0 : ℚ) ≤ 100
        norm_num
      · rw [(updateOneZone_rssi (transform_zone_to_frontend z) zaps hr).1]
        obtain ⟨he0, he100⟩ := experienceFromRssi_bounds (listMean (rssiValues zcs))
        exact hbound100 _ he0 he100
    · by_cases hr : rssiValues zcs = []
      · rw [(updateOneZone_no_rssi (transform_zone_to_frontend z) zaps hr).2]
        show (0 : ℚ) ≤ 0 ∧ (0 : ℚ) ≤ 100
        norm_num
      · rw [(updateOneZone_rssi (transform_zone_to_frontend z) zaps hr).2]
        obtain ⟨he0, he100⟩ := experienceFromRssi_bounds (listMean (rssiValues zcs))
        have h0 : (0 : ℚ) ≤ experienceFromRssi (listMean (rssiValues zcs)) * 0.95 := by nlinarith
        have h100 : experienceFromRssi (listMean (rssiValues zcs)) * 0.95 ≤ 100 := by nlinarith
        exact hbound100 _ h0 h100

/-- Witness for C8: the zone (18 online, 2 offline, 40 clients) with no APs
and no clients satisfies the hypotheses, and its metrics obey the invariant
and the [0, 100] bounds. -/
theorem C8_zone_invariants_witness :
    (0 : ℤ) ≤ 18 ∧
    ((updateOneZone (transform_zone_to_frontend ⟨"z1", "", 18, 2, 40⟩) [] []).connectedAPs +
      (updateOneZone (transform_zone_to_frontend ⟨"z1", "", 18, 2, 40⟩) [] []).disconnectedAPs =
      (updateOneZone (transform_zone_to_frontend ⟨"z1", "", 18, 2, 40⟩) [] []).totalAPs) ∧
    (0 ≤ (updateOneZone (transform_zone_to_frontend ⟨"z1", "", 18, 2, 40⟩) [] []).apAvailability ∧
      (updateOneZone (transform_zone_to_frontend ⟨"z1", "", 18, 2, 40⟩) [] []).apAvailability ≤ 100) := by
  have h := C8_zone_invariants ⟨"z1", "", 18, 2, 40⟩ [] []
  have h2 := h.2 (by norm_num) (by norm_num) (by simp)
  exact ⟨by norm_num, h.1, h2.1⟩

/-- C9: neither core component mutates its input: threading a cycle's raw
zone, AP and client record lists through the Metric Aggregator (zone
normalization plus zone-metric calculation, whose in-place writes target
only the freshly built frontend dictionaries) and the Cause Code Assigner
leaves those lists unchanged. -/
theorem C9_no_input_mutation :
    ∀ (s : CycleState) (gs : ℕ → Rng),
      (runAggregator s).rawZones = s.rawZones ∧
      (runAggregator s).aps = s.aps ∧
      (runAggregator s).clients = s.clients ∧
      (runAssigner gs s).2 = s :=
  fun _ _ => ⟨rfl, rfl, rfl, rfl⟩

/-- C10: every emitted assignment carries a (code, description, impactScore)
triple copied from exactly one entry of the static table (never mixed across
entries); the pool consists solely of table entries; `get_all_cause_codes`
is exactly the per-entry projection of the table; and every generated result
is one of the values that accessor returns — the embedding's results are
fresh values, matching the source's fresh-copy construction, so no call
changes the table or the pool. -/
theorem C10_assignments_from_table :
    (∀ (g : Rng) (a : Option APRecord),
      ∃ e ∈ CAUSE_CODES, generate_cause_code g a = resultOfEntry e) ∧
    (∀ (gs : ℕ → Rng) (aps : List APRecord),
      ∀ a ∈ generate_cause_codes_for_aps gs aps,
        ∃ e ∈ CAUSE_CODES, a.causeCode = e.code ∧
          a.causeDescription = e.description ∧ a.impactScore = e.impactScore) ∧
    get_all_cause_codes = CAUSE_CODES.map resultOfEntry ∧
    (∀ (g : Rng) (a : Option APRecord),
      generate_cause_code g a ∈ get_all_cause_codes) := by
  refine ⟨generate_cause_code_mem_table, ?_, rfl, ?_⟩
  · intro gs aps a ha
    unfold generate_cause_codes_for_aps at ha
    rw [List.mapIdx_eq_enum_map] at ha
    obtain ⟨p, hp, hfp⟩ := List.mem_map.1 ha
    obtain ⟨e, he, h1, h2, h3⟩ := mkAssignment_mem_table (gs p.1) p.2
    rw [← hfp]
    exact ⟨e, he, h1, h2, h3⟩
  · intro g a
    obtain ⟨e, he, heq⟩ := generate_cause_code_mem_table g a
    rw [heq]
    exact List.mem_map.2 ⟨e, he, rfl⟩

/-- Witness for C10: the assignment generated for one concrete AP carries a
triple from the table. -/
theorem C10_assignments_witness :
    mkAssignment ⟨0, 0, 0⟩
        ⟨"", "", "", "", "", "", "", "", "", "", "", "", "", 0, 0, 0, 0⟩ ∈
      generate_cause_codes_for_aps (fun _ => ⟨0, 0, 0⟩)
        [⟨"", "", "", "", "", "", "", "", "", "", "", "", "", 0, 0, 0, 0⟩] ∧
    ∃ e ∈ CAUSE_CODES,
      (mkAssignment ⟨0, 0, 0⟩
        ⟨"", "", "", "", "", "", "", "", "", "", "", "", "", 0, 0, 0, 0⟩).causeCode = e.code ∧
      (mkAssignment ⟨0, 0, 0⟩
        ⟨"", "", "", "", "", "", "", "", "", "", "", "", "", 0, 0, 0, 0⟩).causeDescription = e.description ∧
      (mkAssignment ⟨0, 0, 0⟩
        ⟨"", "", "", "", "", "", "", "", "", "", "", "", "", 0, 0, 0, 0⟩).impactScore = e.impactScore := by
  have hmem : mkAssignment ⟨0, 0, 0⟩
      ⟨"", "", "", "", "", "", "", "", "", "", "", "", "", 0, 0, 0, 0⟩ ∈
      generate_cause_codes_for_aps (fun _ => ⟨0, 0, 0⟩)
        [⟨"", "", "", "", "", "", "", "", "", "", "", "", "", 0, 0, 0, 0⟩] := by
    show mkAssignment ⟨0, 0, 0⟩ _ ∈ [mkAssignment ⟨0, 0, 0⟩ _]
    exact List.mem_singleton.2 rfl
  exact ⟨hmem, C10_assignments_from_table.2.1 _ _ _ hmem⟩
